import Mathlib

/-!
Verification of the transformation core of the sales-ETL script
(`src/etl/etl.py`). The shallow embedding below models the
`transformar_dados` function and its inner helper `formatar_documento`,
working over explicit row records in place of pandas dataframe rows.

Modelling conventions:
  * a pandas `NaN`/missing cell is `Option.none`; a present cell is `some v`;
  * Python `str.upper()` / `str.lower()` are embedded as mapping
    `Char.toUpper` / `Char.toLower` over the characters (both the Python
    code and this model only change basic-latin letters on the data in
    scope);
  * Python `str.isdigit` is embedded as `Char.isDigit` (ASCII digits);
  * the monetary amount is a rational number and `Series.round(2)` is
    rounding to an integer number of hundredths (the tie-breaking
    direction is irrelevant to every property proved here);
  * `datetime.now().strftime(...)` is an explicit `hoje` parameter: the
    registration-date stamp of the run.
-/

/-- Uppercasing a string character by character: embedding of Python
`str.upper()` as used on the `tipo_pessoa` column (line 66). -/
def strUpper (s : String) : String := ⟨s.data.map Char.toUpper⟩

/-- Lowercasing a string character by character: embedding of Python
`str.lower()` as used on the `tipo_contato` column (line 74). -/
def strLower (s : String) : String := ⟨s.data.map Char.toLower⟩

/-- Embedding of `formatar_documento` (etl.py lines 78-92): `none` for a
missing/empty raw document, otherwise strip non-digits and format as CPF
(FISICA, 11 digits), CNPJ (JURIDICA, 14 digits) or fall through to the
bare digit string. -/
def formatar_documento (doc : Option String) (tipo : String) : Option String :=
  match doc with
  | none => none
  | some s =>
    if s = "" then none
    else
      let limpo := s.data.filter Char.isDigit
      if tipo = "FISICA" ∧ limpo.length = 11 then
        some (⟨limpo.take 3⟩ ++ "." ++ ⟨(limpo.drop 3).take 3⟩ ++ "." ++
              ⟨(limpo.drop 6).take 3⟩ ++ "-" ++ ⟨limpo.drop 9⟩)
      else if tipo = "JURIDICA" ∧ limpo.length = 14 then
        some (⟨limpo.take 2⟩ ++ "." ++ ⟨(limpo.drop 2).take 3⟩ ++ "." ++
              ⟨(limpo.drop 5).take 3⟩ ++ "/" ++ ⟨(limpo.drop 8).take 4⟩ ++
              "-" ++ ⟨limpo.drop 12⟩)
      else
        some ⟨limpo⟩

/-- A row of the `clientes` dataframe: the source columns plus the two
columns the transformation writes (`documento_formatado`,
`data_cadastro`), which are absent (`none`) before the transformation. -/
structure ClienteRow where
  id_cliente : Int
  nome : String
  email : String
  documento : Option String
  tipo_pessoa : Option String
  tipo_contato : Option String
  documento_formatado : Option String
  data_cadastro : Option String
  deriving DecidableEq, Repr

/-- A calendar date, as carried by the `data_venda` column. -/
structure Date where
  year : Int
  month : Nat
  day : Nat
  deriving DecidableEq, Repr

/-- A date whose components are in calendar range. -/
def Date.valid (d : Date) : Prop :=
  1 ≤ d.month ∧ d.month ≤ 12 ∧ 1 ≤ d.day ∧ d.day ≤ 31

/-- A row of the `vendas` dataframe: source columns plus the columns the
transformation writes (`mes_venda`, `ano_venda`, `status_venda`). -/
structure VendaRow where
  id_venda : Int
  id_cliente : Int
  data_venda : Date
  valor : ℚ
  mes_venda : Nat
  ano_venda : Int
  status_venda : String
  deriving DecidableEq, Repr

/-- Rounding to 2 fractional decimal digits (etl.py line 106,
`vendas['valor'].round(2)`), modelled on rationals as rounding to an
integer count of hundredths. -/
def round2 (x : ℚ) : ℚ := ((round (x * 100) : ℤ) : ℚ) / 100

/-- The per-row action of `transformar_dados` on a `clientes` row
(etl.py lines 63-100): fill a missing `tipo_pessoa` with "FISICA" then
uppercase it, fill a missing `tipo_contato` with "email" then lowercase
it, compute `documento_formatado` from the raw document and the
normalized person type, and stamp `data_cadastro` with the run date. -/
def transformCliente (hoje : String) (c : ClienteRow) : ClienteRow :=
  let tp := strUpper (c.tipo_pessoa.getD "FISICA")
  { id_cliente := c.id_cliente
    nome := c.nome
    email := c.email
    documento := c.documento
    tipo_pessoa := some tp
    tipo_contato := some (strLower (c.tipo_contato.getD "email"))
    documento_formatado := formatar_documento c.documento tp
    data_cadastro := some hoje }

/-- The per-row action of `transformar_dados` on a `vendas` row
(etl.py lines 106-115): round the amount to 2 decimals, extract month
and year from `data_venda`, and set the constant status. -/
def transformVenda (v : VendaRow) : VendaRow :=
  { id_venda := v.id_venda
    id_cliente := v.id_cliente
    data_venda := v.data_venda
    valor := round2 v.valor
    mes_venda := v.data_venda.month
    ano_venda := v.data_venda.year
    status_venda := "CONCLUÍDA" }

/-- Embedding of `transformar_dados` (etl.py lines 41-118): both
dataframes are transformed row by row, in order. -/
def transformar_dados (hoje : String) (clientes : List ClienteRow)
    (vendas : List VendaRow) : List ClienteRow × List VendaRow :=
  (clientes.map (transformCliente hoje), vendas.map transformVenda)

/-- Forget the `data_cadastro` stamp of a transformed client row (used to
state idempotence modulo the date stamp). -/
def eraseDataCadastro (c : ClienteRow) : ClienteRow :=
  { c with data_cadastro := none }

-- Helper lemmas

theorem charToUpper_toUpper (c : Char) : c.toUpper.toUpper = c.toUpper := by
  unfold Char.toUpper
  by_cases h : 97 ≤ c.toNat ∧ c.toNat ≤ 122
  · rw [if_pos h]
    have h65 : 65 ≤ c.toNat - 32 := by omega
    have h90 : c.toNat - 32 ≤ 90 := by omega
    rw [if_neg]
    generalize c.toNat - 32 = m at h65 h90
    interval_cases m <;> decide
  · rw [if_neg h, if_neg h]

theorem charToLower_toLower (c : Char) : c.toLower.toLower = c.toLower := by
  unfold Char.toLower
  by_cases h : 65 ≤ c.toNat ∧ c.toNat ≤ 90
  · rw [if_pos h]
    have h97 : 97 ≤ c.toNat + 32 := by omega
    have h122 : c.toNat + 32 ≤ 122 := by omega
    rw [if_neg]
    generalize c.toNat + 32 = m at h97 h122
    interval_cases m <;> decide
  · rw [if_neg h, if_neg h]

theorem strUpper_idem (s : String) : strUpper (strUpper s) = strUpper s := by
  unfold strUpper
  apply congrArg String.mk
  simp [List.map_map, Function.comp, charToUpper_toUpper]

theorem strLower_idem (s : String) : strLower (strLower s) = strLower s := by
  unfold strLower
  apply congrArg String.mk
  simp [List.map_map, Function.comp, charToLower_toLower]

theorem round2_idem (x : ℚ) : round2 (round2 x) = round2 x := by
  unfold round2
  rw [div_mul_cancel₀ _ (by norm_num : (100 : ℚ) ≠ 0), round_intCast]

theorem chainSplit4 (l : List Char) (a b c : ℕ) :
    l.take a ++ ((l.drop a).take b ++ ((l.drop (a + b)).take c ++ l.drop (a + b + c))) = l := by
  have h1 : l.drop (a + b) = (l.drop a).drop b := by rw [List.drop_drop]
  have h2 : l.drop (a + b + c) = ((l.drop a).drop b).drop c := by
    rw [List.drop_drop, List.drop_drop, Nat.add_assoc]
  rw [h1, h2, List.take_append_drop, List.take_append_drop, List.take_append_drop]

theorem chainSplit5 (l : List Char) (a b c d : ℕ) :
    l.take a ++ ((l.drop a).take b ++ ((l.drop (a + b)).take c ++
      ((l.drop (a + b + c)).take d ++ l.drop (a + b + c + d)))) = l := by
  have h1 : l.drop (a + b) = (l.drop a).drop b := by rw [List.drop_drop]
  have h2 : l.drop (a + b + c) = ((l.drop a).drop b).drop c := by
    rw [List.drop_drop, List.drop_drop, Nat.add_assoc]
  have h3 : l.drop (a + b + c + d) = (((l.drop a).drop b).drop c).drop d := by
    rw [List.drop_drop, List.drop_drop, List.drop_drop]
    congr 1
    omega
  rw [h1, h2, h3, List.take_append_drop, List.take_append_drop, List.take_append_drop,
    List.take_append_drop]

theorem transformVenda_idem (v : VendaRow) :
    transformVenda (transformVenda v) = transformVenda v := by
  simp only [transformVenda, round2_idem]

theorem transformCliente_idem_mod_data (h1 h2 : String) (c : ClienteRow) :
    eraseDataCadastro (transformCliente h2 (transformCliente h1 c)) =
      eraseDataCadastro (transformCliente h1 c) := by
  simp only [transformCliente, eraseDataCadastro, Option.getD_some, strUpper_idem,
    strLower_idem]

-- Claim theorems

/-- Claim C1, counterexample: on a person record whose person-type tag is
present but empty, the output tag is the empty string, not "FISICA" as the
claim states (the code fills only missing values, line 63). -/
theorem c1_counterexample :
    (transformCliente "2099-01-01"
      { id_cliente := 1, nome := "Ana", email := "a@x.com", documento := none,
        tipo_pessoa := some "", tipo_contato := none,
        documento_formatado := none, data_cadastro := none }).tipo_pessoa = some "" ∧
    (some "" : Option String) ≠ some "FISICA" := by
  exact ⟨by decide, by decide⟩

/-- Claim C1, amended: the output person-type tag equals "FISICA" when the
input tag is absent, and otherwise equals the uppercase conversion of the
input tag (so a present-but-empty tag stays the empty string). -/
theorem c1_tipo_pessoa_amended (hoje : String) (c : ClienteRow) :
    (transformCliente hoje c).tipo_pessoa =
      some (match c.tipo_pessoa with
            | none => "FISICA"
            | some s => strUpper s) := by
  cases h : c.tipo_pessoa with
  | none => simp only [transformCliente, h, Option.getD_none]; decide
  | some s => simp [transformCliente, h]

/-- Claim C2: for every person-type value, `formatar_documento` returns
`none` on an absent or empty raw document. -/
theorem c2_documento_ausente_null (tipo : String) :
    formatar_documento none tipo = none ∧
    formatar_documento (some "") tipo = none := by
  exact ⟨rfl, by simp [formatar_documento]⟩

/-- Claim C3: when the digits left after stripping number exactly 11,
`formatar_documento` with person-type "FISICA" returns those digits
grouped 3-3-3-2 with separators '.', '.', '-', and the groups recombine to
the full stripped digit string. -/
theorem c3_cpf_formato (s : String)
    (h : (s.data.filter Char.isDigit).length = 11) :
    formatar_documento (some s) "FISICA" =
      some (String.mk ((s.data.filter Char.isDigit).take 3) ++ "." ++
            String.mk (((s.data.filter Char.isDigit).drop 3).take 3) ++ "." ++
            String.mk (((s.data.filter Char.isDigit).drop 6).take 3) ++ "-" ++
            String.mk ((s.data.filter Char.isDigit).drop 9)) ∧
    ((s.data.filter Char.isDigit).take 3).length = 3 ∧
    (((s.data.filter Char.isDigit).drop 3).take 3).length = 3 ∧
    (((s.data.filter Char.isDigit).drop 6).take 3).length = 3 ∧
    ((s.data.filter Char.isDigit).drop 9).length = 2 ∧
    (s.data.filter Char.isDigit).take 3 ++
      (((s.data.filter Char.isDigit).drop 3).take 3 ++
        (((s.data.filter Char.isDigit).drop 6).take 3 ++
          (s.data.filter Char.isDigit).drop 9)) = s.data.filter Char.isDigit := by
  have hs : s ≠ "" := by
    intro contra
    rw [contra] at h
    exact absurd h (by decide)
  refine ⟨?_, ?_, ?_, ?_, ?_, ?_⟩
  · simp only [formatar_documento]
    rw [if_neg hs, if_pos ⟨by trivial, h⟩]
  · simp [List.length_take, h]
  · simp [List.length_take, List.length_drop, h]
  · simp [List.length_take, List.length_drop, h]
  · simp [List.length_drop, h]
  · have hc := chainSplit4 (s.data.filter Char.isDigit) 3 3 3
    norm_num at hc
    exact hc

/-- Claim C3, witness at the concrete raw document "123.456.789-01". -/
theorem c3_cpf_formato_witness :
    (("123.456.789-01" : String).data.filter Char.isDigit).length = 11 ∧
    formatar_documento (some "123.456.789-01") "FISICA" = some "123.456.789-01" := by
  refine ⟨by decide, ?_⟩
  rw [(c3_cpf_formato "123.456.789-01" (by decide)).1]
  decide

/-- Claim C4: when the digits left after stripping number exactly 14,
`formatar_documento` with person-type "JURIDICA" returns those digits
grouped 2-3-3-4-2 with separators '.', '.', '/', '-', and the groups
recombine to the full stripped digit string. -/
theorem c4_cnpj_formato (s : String)
    (h : (s.data.filter Char.isDigit).length = 14) :
    formatar_documento (some s) "JURIDICA" =
      some (String.mk ((s.data.filter Char.isDigit).take 2) ++ "." ++
            String.mk (((s.data.filter Char.isDigit).drop 2).take 3) ++ "." ++
            String.mk (((s.data.filter Char.isDigit).drop 5).take 3) ++ "/" ++
            String.mk (((s.data.filter Char.isDigit).drop 8).take 4) ++ "-" ++
            String.mk ((s.data.filter Char.isDigit).drop 12)) ∧
    ((s.data.filter Char.isDigit).take 2).length = 2 ∧
    (((s.data.filter Char.isDigit).drop 2).take 3).length = 3 ∧
    (((s.data.filter Char.isDigit).drop 5).take 3).length = 3 ∧
    (((s.data.filter Char.isDigit).drop 8).take 4).length = 4 ∧
    ((s.data.filter Char.isDigit).drop 12).length = 2 ∧
    (s.data.filter Char.isDigit).take 2 ++
      (((s.data.filter Char.isDigit).drop 2).take 3 ++
        (((s.data.filter Char.isDigit).drop 5).take 3 ++
          (((s.data.filter Char.isDigit).drop 8).take 4 ++
            (s.data.filter Char.isDigit).drop 12))) = s.data.filter Char.isDigit := by
  have hs : s ≠ "" := by
    intro contra
    rw [contra] at h
    exact absurd h (by decide)
  have h11 : ¬("JURIDICA" = "FISICA" ∧ (s.data.filter Char.isDigit).length = 11) := by
    rintro ⟨hj, -⟩
    exact absurd hj (by decide)
  refine ⟨?_, ?_, ?_, ?_, ?_, ?_, ?_⟩
  · simp only [formatar_documento]
    rw [if_neg hs, if_neg h11, if_pos ⟨by trivial, h⟩]
  · simp [List.length_take, h]
  · simp [List.length_take, List.length_drop, h]
  · simp [List.length_take, List.length_drop, h]
  · simp [List.length_take, List.length_drop, h]
  · simp [List.length_drop, h]
  · have hc := chainSplit5 (s.data.filter Char.isDigit) 2 3 3 4
    norm_num at hc
    exact hc

/-- Claim C4, witness at the concrete raw document "12.345.678/0001-95". -/
theorem c4_cnpj_formato_witness :
    (("12.345.678/0001-95" : String).data.filter Char.isDigit).length = 14 ∧
    formatar_documento (some "12.345.678/0001-95") "JURIDICA" =
      some "12.345.678/0001-95" := by
  refine ⟨by decide, ?_⟩
  rw [(c4_cnpj_formato "12.345.678/0001-95" (by decide)).1]
  decide

/-- Claim C5: on a non-empty raw document, whenever the (person-type,
stripped-length) pair matches neither ("FISICA", 11) nor ("JURIDICA", 14),
`formatar_documento` returns the stripped digit string unchanged; the
function is total, so no error is possible. -/
theorem c5_fallback_sem_formato (s : String) (tipo : String) (hs : s ≠ "")
    (h11 : ¬(tipo = "FISICA" ∧ (s.data.filter Char.isDigit).length = 11))
    (h14 : ¬(tipo = "JURIDICA" ∧ (s.data.filter Char.isDigit).length = 14)) :
    formatar_documento (some s) tipo = some (String.mk (s.data.filter Char.isDigit)) := by
  simp only [formatar_documento]
  rw [if_neg hs, if_neg h11, if_neg h14]

/-- Claim C5, witness: a 3-digit document of a "FISICA" person passes
through unformatted. -/
theorem c5_fallback_sem_formato_witness :
    ("123" : String) ≠ "" ∧
    ¬(("FISICA" : String) = "FISICA" ∧ (("123" : String).data.filter Char.isDigit).length = 11) ∧
    ¬(("FISICA" : String) = "JURIDICA" ∧ (("123" : String).data.filter Char.isDigit).length = 14) ∧
    formatar_documento (some "123") "FISICA" = some "123" := by
  refine ⟨by decide, by decide, by decide, ?_⟩
  rw [c5_fallback_sem_formato "123" "FISICA" (by decide) (by decide) (by decide)]
  decide

/-- Claim C6: the status tag of every transformed transaction record is
the constant "CONCLUÍDA", whatever the input record is. -/
theorem c6_status_constante (v : VendaRow) :
    (transformVenda v).status_venda = "CONCLUÍDA" := rfl

/-- Claim C7: on a transaction record with a valid date, the derived month
is the date's month component (hence between 1 and 12) and the derived
year is the date's year component. -/
theorem c7_mes_ano (v : VendaRow) (h : v.data_venda.valid) :
    (transformVenda v).mes_venda = v.data_venda.month ∧
    1 ≤ (transformVenda v).mes_venda ∧ (transformVenda v).mes_venda ≤ 12 ∧
    (transformVenda v).ano_venda = v.data_venda.year :=
  ⟨rfl, h.1, h.2.1, rfl⟩

/-- Claim C7, witness at a transaction dated 2024-03-15. -/
theorem c7_mes_ano_witness :
    (transformVenda
      { id_venda := 10, id_cliente := 1, data_venda := { year := 2024, month := 3, day := 15 },
        valor := 99999 / 1000, mes_venda := 0, ano_venda := 0,
        status_venda := "" }).mes_venda = 3 ∧
    (transformVenda
      { id_venda := 10, id_cliente := 1, data_venda := { year := 2024, month := 3, day := 15 },
        valor := 99999 / 1000, mes_venda := 0, ano_venda := 0,
        status_venda := "" }).ano_venda = 2024 := by
  have h := c7_mes_ano
    { id_venda := 10, id_cliente := 1, data_venda := { year := 2024, month := 3, day := 15 },
      valor := 99999 / 1000, mes_venda := 0, ano_venda := 0, status_venda := "" }
    ⟨by decide, by decide, by decide, by decide⟩
  exact ⟨h.1, h.2.2.2⟩

/-- Claim C8: the transformation preserves the length and relative order
of both record sequences, and the record at each position keeps the
identifier of its input counterpart. -/
theorem c8_preserva_ordem_e_ids (hoje : String) (cs : List ClienteRow) (vs : List VendaRow) :
    (transformar_dados hoje cs vs).1.length = cs.length ∧
    (transformar_dados hoje cs vs).2.length = vs.length ∧
    (∀ i : ℕ, ((transformar_dados hoje cs vs).1[i]?).map ClienteRow.id_cliente =
      (cs[i]?).map ClienteRow.id_cliente) ∧
    (∀ i : ℕ, ((transformar_dados hoje cs vs).2[i]?).map VendaRow.id_venda =
      (vs[i]?).map VendaRow.id_venda) := by
  refine ⟨by simp [transformar_dados], by simp [transformar_dados], fun i => ?_, fun i => ?_⟩
  · simp only [transformar_dados, List.getElem?_map]
    cases cs[i]? with
    | none => rfl
    | some c => rfl
  · simp only [transformar_dados, List.getElem?_map]
    cases vs[i]? with
    | none => rfl
    | some v => rfl

/-- Claim C9: running the transformation on its own output changes
nothing except the `data_cadastro` stamp of the client rows; the sales
rows are reproduced exactly. -/
theorem c9_idempotente (h1 h2 : String) (cs : List ClienteRow) (vs : List VendaRow) :
    (transformar_dados h2 (transformar_dados h1 cs vs).1
        (transformar_dados h1 cs vs).2).1.map eraseDataCadastro =
      (transformar_dados h1 cs vs).1.map eraseDataCadastro ∧
    (transformar_dados h2 (transformar_dados h1 cs vs).1
        (transformar_dados h1 cs vs).2).2 =
      (transformar_dados h1 cs vs).2 := by
  constructor
  · simp only [transformar_dados, List.map_map]
    congr 1
    funext c
    exact transformCliente_idem_mod_data h1 h2 c
  · simp only [transformar_dados, List.map_map]
    congr 1
    funext v
    exact transformVenda_idem v

/-- Claim C10: a non-empty raw document with no digit at all is mapped to
the empty string (the stripped digit string), not to `none`, for every
person-type. -/
theorem c10_sem_digitos_string_vazia (s : String) (tipo : String) (hs : s ≠ "")
    (hd : s.data.filter Char.isDigit = []) :
    formatar_documento (some s) tipo = some "" := by
  have h11 : ¬(tipo = "FISICA" ∧ (s.data.filter Char.isDigit).length = 11) := by
    rw [hd]; simp
  have h14 : ¬(tipo = "JURIDICA" ∧ (s.data.filter Char.isDigit).length = 14) := by
    rw [hd]; simp
  simp only [formatar_documento]
  rw [if_neg hs, if_neg h11, if_neg h14, hd]

/-- Claim C10, witness at the digit-free raw document "---". -/
theorem c10_sem_digitos_string_vazia_witness :
    ("---" : String) ≠ "" ∧
    ("---" : String).data.filter Char.isDigit = [] ∧
    formatar_documento (some "---") "JURIDICA" = some "" := by
  exact ⟨by decide, by decide,
    c10_sem_digitos_string_vazia "---" "JURIDICA" (by decide) (by decide)⟩
